import Mathlib

/-!
# Verification of the FreePBX / AmoCRM integration core

Shallow embedding of the call-session correlation engine and the CRM
synchronization protocol from `integration.py` and `integration_debug.py`:
phone normalization (`extract_phone`), direction classification
(`detect_direction`), the per-channel session table driven by AMI events
(`on_new_channel`, `on_bridge_enter`, `on_hangup`), the CRM client with its
401-refresh-retry (`api_request`, `refresh_tokens`), contact lookup and call
processing (`find_contact`, `process_call`), and the recording locator
(`find_recording`).  Timestamps are modelled as natural-number seconds; the
Python `timedelta.seconds` field is the euclidean remainder modulo 86400.
String primitives are implemented over `List Char` so that all definitions
reduce in the kernel; lowercasing covers the ASCII range, which is all the
direction markers use.
-/

/-- Boolean prefix test on character lists. -/
def charsPrefix : List Char → List Char → Bool
  | [], _ => true
  | _ :: _, [] => false
  | a :: as, b :: bs => a == b && charsPrefix as bs

/-- Boolean infix (substring) test on character lists. -/
def charsInfix : List Char → List Char → Bool
  | n, [] => n.isEmpty
  | n, c :: rest => charsPrefix n (c :: rest) || charsInfix n rest

/-- Substring containment, the Python `needle in hay` test. -/
def strContains (hay needle : String) : Bool :=
  charsInfix needle.data hay.data

/-- ASCII lowercase of one character (the Python `str.lower` restricted to
the ASCII range used by the direction markers). -/
def charLower (c : Char) : Char :=
  if 'A' ≤ c && c ≤ 'Z' then Char.ofNat (c.toNat + 32) else c

/-- ASCII lowercase of a string. -/
def strLower (s : String) : String :=
  ⟨s.data.map charLower⟩

/-- The digit-filtering step `''.join(filter(str.isdigit, s))`. -/
def digitsOnly (s : String) : String :=
  ⟨s.data.filter Char.isDigit⟩

/-- Drop the first `n` characters, the Python slice `s[n:]`. -/
def strDrop (s : String) (n : Nat) : String :=
  ⟨s.data.drop n⟩

/-- Prefix test, the Python `s.startswith(pre)`. -/
def strStarts (s pre : String) : Bool :=
  charsPrefix pre.data s.data

/-- Suffix test, the Python-glob anchoring `name` ends with `ext`. -/
def strEnds (s suf : String) : Bool :=
  charsPrefix suf.data.reverse s.data.reverse

/-- `AsteriskAMIHandler.extract_phone` applied to the raw caller-id string:
strip non-digits, rewrite a leading `8` of an 11-digit number to `7`, accept
only results of at least 10 digits (else `None`). -/
def extract_phone (callerid : String) : Option String :=
  let phone := digitsOnly callerid
  let phone :=
    if strStarts phone "8" && phone.length = 11 then
      "7" ++ strDrop phone 1
    else phone
  if phone.length ≥ 10 then some phone else none

/-- The PhoneNormalizer as worded in the specification: strip every non-digit
character; if the remaining digit string has length 11 and starts with digit
`8`, replace the leading digit with `7`; accept the result only if its length
is at least 10 digits, else invalid (`none`). -/
def phoneNormalizerSpec (raw : String) : Option String :=
  let digits := digitsOnly raw
  let canon :=
    if digits.length = 11 && strStarts digits "8" then
      "7" ++ strDrop digits 1
    else digits
  if canon.length ≥ 10 then some canon else none

/-- `AsteriskAMIHandler.detect_direction` of `integration.py`
(channel name only). -/
def detect_direction (channel : String) : String :=
  let cl := strLower channel
  if strContains cl "from-trunk" || strContains cl "from-pstn" then "inbound"
  else if strContains cl "from-internal" then "outbound"
  else "unknown"

/-- `AsteriskAMIHandler.detect_direction` of `integration_debug.py`
(channel name and context). -/
def detect_direction_debug (channel context : String) : String :=
  let cl := strLower channel
  let xl := strLower context
  if strContains cl "from-trunk" || strContains cl "from-pstn" then "inbound"
  else if strContains xl "from-trunk" || strContains xl "from-pstn" then "inbound"
  else if strContains cl "from-internal" || strContains xl "from-internal" then "outbound"
  else if strContains xl "ext-local" then "internal"
  else "unknown"

/-- One entry of `AsteriskAMIHandler.active_channels` (an in-memory session,
`integration.py` version).  `answerTime = none` models the dict lacking the
`answer_time` key; times are seconds. -/
structure ChannelSession where
  channel : String
  callerid : String
  startTime : Nat
  direction : String
  connected : Bool
  answerTime : Option Nat
deriving Repr, DecidableEq

/-- The `active_channels` dict: unique-id keyed session table. -/
def SessionTable : Type := String → Option ChannelSession

/-- The empty session table (state at process boot). -/
def emptyTable : SessionTable := fun _ => none

/-- The switch events the engine registers handlers for. -/
inductive AmiEvent where
  | newChannel (uniqueid channel callerid : String) (tm : Nat)
  | bridgeEnter (uniqueid : String) (tm : Nat)
  | hangup (uniqueid causeTxt : String) (tm : Nat)
deriving Repr, DecidableEq

/-- The unique-id an event carries. -/
def AmiEvent.uid : AmiEvent → String
  | .newChannel u _ _ _ => u
  | .bridgeEnter u _ => u
  | .hangup u _ _ => u

/-- Whether an event is a channel-creation event. -/
def AmiEvent.isNewChannel : AmiEvent → Bool
  | .newChannel _ _ _ _ => true
  | _ => false

/-- The fact the engine hands to `CallProcessor.process_call` on hangup
(the `call_data` dict). -/
structure CallFact where
  phone : String
  direction : String
  duration : Nat
  status : String
  uniqueid : String
  timestamp : Nat
deriving Repr, DecidableEq

/-- `AsteriskAMIHandler.on_new_channel`: unconditionally (over)writes the
session for the event's unique-id. -/
def on_new_channel (t : SessionTable) (id channel callerid : String)
    (tm : Nat) : SessionTable :=
  fun k =>
    if k = id then
      some { channel := channel
             callerid := callerid
             startTime := tm
             direction := detect_direction channel
             connected := false
             answerTime := none }
    else t k

/-- `AsteriskAMIHandler.on_bridge_enter`: if a session exists for the id,
set `connected` and (re)record `answer_time`; otherwise do nothing. -/
def on_bridge_enter (t : SessionTable) (id : String) (tm : Nat) : SessionTable :=
  match t id with
  | none => t
  | some s =>
    fun k =>
      if k = id then some { s with connected := true, answerTime := some tm }
      else t k

/-- The duration computed at hangup, `(end_time - answer_time).seconds` of a
Python `timedelta`: the whole-seconds remainder modulo one day (86400). -/
def hangupDuration (answerTime : Option Nat) (tm : Nat) : Nat :=
  match answerTime with
  | some a => (((tm : Int) - (a : Int)) % 86400).toNat
  | none => 0

/-- `AsteriskAMIHandler.on_hangup` (`integration.py`): unknown id is a no-op;
otherwise compute duration and status, extract the phone, always delete the
session, and emit a `call_data` fact exactly when the phone is valid. -/
def on_hangup (t : SessionTable) (id causeTxt : String) (tm : Nat) :
    SessionTable × Option CallFact :=
  match t id with
  | none => (t, none)
  | some call =>
    let dur := hangupDuration call.answerTime tm
    let status := if call.answerTime.isSome then "ANSWERED" else causeTxt
    let t' : SessionTable := fun k => if k = id then none else t k
    match extract_phone call.callerid with
    | none => (t', none)
    | some phone =>
      (t', some { phone := phone
                  direction := call.direction
                  duration := dur
                  status := status
                  uniqueid := id
                  timestamp := call.startTime })

/-- Dispatch of one AMI event to its registered handler. -/
def stepEvent (t : SessionTable) : AmiEvent → SessionTable × Option CallFact
  | .newChannel id ch cid tm => (on_new_channel t id ch cid tm, none)
  | .bridgeEnter id tm => (on_bridge_enter t id tm, none)
  | .hangup id c tm => on_hangup t id c tm

/-- Run a sequence of AMI events, collecting every emitted fact. -/
def runEvents (t : SessionTable) : List AmiEvent → SessionTable × List CallFact
  | [] => (t, [])
  | e :: es =>
    let r := stepEvent t e
    let rest := runEvents r.1 es
    (rest.1, r.2.toList ++ rest.2)

/-- The token state of `AmoCRMAPI`: the in-memory pair plus the persisted
file content (`tokens.json`), written by `save_tokens`. -/
structure TokenState where
  access_token : Option String
  refresh_token : Option String
  stored : Option (String × String)
deriving Repr, DecidableEq

/-- `AmoCRMAPI.refresh_tokens`: posts the stored refresh token (even when it
is absent, Python sends `null`) to the OAuth endpoint, reads `access_token`
and `refresh_token` from the response body and persists them.  The network
is an oracle from the sent refresh token to the response: `some (a, r)` when
the body carries both keys, `none` when it does not (the uncaught `KeyError`
/ decode exception, modelled as `Except.error ()`).  The second component
counts the token-endpoint exchanges performed (always exactly one). -/
def refresh_tokens (st : TokenState)
    (net : Option String → Option (String × String)) :
    Except Unit TokenState × Nat :=
  match net st.refresh_token with
  | some p =>
    (Except.ok { access_token := some p.1, refresh_token := some p.2,
                 stored := some p }, 1)
  | none => (Except.error (), 1)

/-- `n` successive triggers of `refresh_tokens` (any schedule of `n`
concurrent triggers executes each unguarded body once); returns the final
state and the total number of token-endpoint exchanges. -/
def refreshN (net : Option String → Option (String × String)) :
    TokenState → Nat → TokenState × Nat
  | st, 0 => (st, 0)
  | st, n + 1 =>
    let r := refresh_tokens st net
    let st' := match r.1 with | .ok s => s | .error _ => st
    let rest := refreshN net st' n
    (rest.1, r.2 + rest.2)

deriving instance DecidableEq for Except

/-- Outcome of `AmoCRMAPI.api_request`: the returned value (`Except.error`
when an exception escapes, `Except.ok none` for the logged `return None` on
HTTP ≥ 400, `Except.ok (some body)` on success), the token state afterwards,
the number of token refreshes and the number of HTTP attempts on the API
endpoint. -/
structure ApiOutcome where
  result : Except Unit (Option (List Nat))
  state : TokenState
  refreshes : Nat
  attempts : Nat
deriving Repr, DecidableEq

/-- `AmoCRMAPI.api_request` with `retry=False`: one attempt, no refresh.
The HTTP oracle maps the bearer token sent and the attempt index to the
response status and body (the body abstracted to the contact-id list the
search endpoint returns). -/
def api_request_noretry (oracle : Option String → Nat → Nat × List Nat)
    (st : TokenState) (i : Nat) : ApiOutcome :=
  let r := oracle st.access_token i
  if 400 ≤ r.1 then
    { result := .ok none, state := st, refreshes := 0, attempts := 1 }
  else
    { result := .ok (some r.2), state := st, refreshes := 0, attempts := 1 }

/-- `AmoCRMAPI.api_request` with `retry=True` (the entry point): on a 401 it
refreshes once and re-issues the request with the new token and
`retry=False`; any other status is handled directly. -/
def api_request (oracle : Option String → Nat → Nat × List Nat)
    (net : Option String → Option (String × String))
    (st : TokenState) (i : Nat) : ApiOutcome :=
  let r := oracle st.access_token i
  if r.1 = 401 then
    match (refresh_tokens st net).1 with
    | .error e => { result := .error e, state := st, refreshes := 1, attempts := 1 }
    | .ok st' =>
      let o := api_request_noretry oracle st' (i + 1)
      { o with refreshes := o.refreshes + 1, attempts := o.attempts + 1 }
  else if 400 ≤ r.1 then
    { result := .ok none, state := st, refreshes := 0, attempts := 1 }
  else
    { result := .ok (some r.2), state := st, refreshes := 0, attempts := 1 }

/-- `AmoCRMAPI.find_contact`: queries the contact-search endpoint with the
digits of the phone; `none` both when the request failed (`api_request`
returned `None`) and when the response holds no contacts, else the first
contact.  The oracle's first argument is the query string sent. -/
def find_contact (oracle : String → Option String → Nat → Nat × List Nat)
    (net : Option String → Option (String × String))
    (st : TokenState) (phone : String) : Except Unit (Option Nat) :=
  (api_request (oracle (digitsOnly phone)) net st 0).result.map
    (fun body => body.bind List.head?)

/-- A file in the recording storage subtree: base name and mtime. -/
structure RecFile where
  name : String
  mtime : Nat
deriving Repr, DecidableEq

/-- The glob pattern `*<uid>*<ext>` (anchored at the end): `uid` occurs and
`ext` closes the name after that occurrence. -/
def globMatch (uid ext : String) (name : String) : Bool :=
  (List.range (name.length + 1)).any (fun i =>
    let rest := name.data.drop i
    charsPrefix uid.data rest &&
      charsPrefix ext.data.reverse (rest.drop uid.data.length).reverse)

/-- Python `max(files, key=os.path.getmtime)`: the first file of maximal
mtime, `none` on an empty list. -/
def latestFile : List RecFile → Option RecFile
  | [] => none
  | f :: fs => some (fs.foldl (fun g x => if x.mtime > g.mtime then x else g) f)

/-- The pattern loop of `CallProcessor.find_recording`: try the extension
patterns in order, return the latest file of the first pattern with any
match. -/
def findRecAux (uid : String) (files : List RecFile) :
    List String → Option RecFile
  | [] => none
  | ext :: rest =>
    let ms := files.filter (fun f => globMatch uid ext f.name)
    if ms.isEmpty then findRecAux uid files rest
    else latestFile ms

/-- The extension patterns, in source order. -/
def recordingExts : List String := [".wav", ".WAV", ".mp3"]

/-- `CallProcessor.find_recording`. -/
def find_recording (uid : String) (files : List RecFile) : Option RecFile :=
  findRecAux uid files recordingExts

/-- The externally visible CRM effect `CallProcessor.process_call` decides
on: create an unsorted lead, or attach a call note (with or without a
located recording) to the found contact. -/
inductive SyncAction where
  | createUnsorted (phone : String)
  | attachNote (contactId : Nat) (withRecording : Bool)
deriving Repr, DecidableEq

/-- `CallProcessor.process_call`: look the contact up; absent (including
every failed lookup) means create an unsorted lead; present means locate the
recording and attach a note. -/
def process_call (oracle : String → Option String → Nat → Nat × List Nat)
    (net : Option String → Option (String × String))
    (st : TokenState) (phone uniqueid : String) (files : List RecFile) :
    Except Unit SyncAction :=
  match find_contact oracle net st phone with
  | .error e => .error e
  | .ok none => .ok (.createUnsorted phone)
  | .ok (some cid) =>
    .ok (.attachNote cid (find_recording uniqueid files).isSome)

/-- C2: for every raw caller-id string `extract_phone` agrees with the
normalizer described by the specification (strip non-digits; an 11-digit
string starting with `8` gets its leading digit replaced by `7`; the result
is returned exactly when it has at least 10 digits, else invalid), and in
particular `"8-916-123-45-67"` maps to `"79161234567"` and `"123"` to
invalid. -/
theorem extract_phone_matches_spec :
    (∀ raw : String, extract_phone raw = phoneNormalizerSpec raw) ∧
    extract_phone "8-916-123-45-67" = some "79161234567" ∧
    extract_phone "123" = none := by
  refine ⟨fun raw => ?_, by decide, by decide⟩
  simp only [extract_phone, phoneNormalizerSpec, Bool.and_comm]

/-- C2 witness: the agreement theorem evaluated at the two concrete example
inputs. -/
theorem extract_phone_matches_spec_witness :
    extract_phone "8-916-123-45-67" = phoneNormalizerSpec "8-916-123-45-67" ∧
    extract_phone "123" = phoneNormalizerSpec "123" :=
  ⟨extract_phone_matches_spec.1 "8-916-123-45-67",
   extract_phone_matches_spec.1 "123"⟩

/-- C3: direction classification (`detect_direction` of
`integration_debug.py`, the variant taking channel name and context) is a
case-insensitive substring match in priority order: a trunk/PSTN marker in
channel or context gives inbound; otherwise `from-internal` in channel or
context gives outbound; otherwise `ext-local` in the context gives internal;
with no marker present the result is unknown — together with the four
concrete examples of the claim. -/
theorem detect_direction_priority_order :
    (∀ ch cx : String,
      (strContains (strLower ch) "from-trunk" || strContains (strLower ch) "from-pstn" ||
        strContains (strLower cx) "from-trunk" || strContains (strLower cx) "from-pstn") = true →
      detect_direction_debug ch cx = "inbound") ∧
    (∀ ch cx : String,
      strContains (strLower ch) "from-trunk" = false →
      strContains (strLower ch) "from-pstn" = false →
      strContains (strLower cx) "from-trunk" = false →
      strContains (strLower cx) "from-pstn" = false →
      (strContains (strLower ch) "from-internal" || strContains (strLower cx) "from-internal") = true →
      detect_direction_debug ch cx = "outbound") ∧
    (∀ ch cx : String,
      strContains (strLower ch) "from-trunk" = false →
      strContains (strLower ch) "from-pstn" = false →
      strContains (strLower cx) "from-trunk" = false →
      strContains (strLower cx) "from-pstn" = false →
      strContains (strLower ch) "from-internal" = false →
      strContains (strLower cx) "from-internal" = false →
      strContains (strLower cx) "ext-local" = true →
      detect_direction_debug ch cx = "internal") ∧
    (∀ ch cx : String,
      strContains (strLower ch) "from-trunk" = false →
      strContains (strLower ch) "from-pstn" = false →
      strContains (strLower cx) "from-trunk" = false →
      strContains (strLower cx) "from-pstn" = false →
      strContains (strLower ch) "from-internal" = false →
      strContains (strLower cx) "from-internal" = false →
      strContains (strLower cx) "ext-local" = false →
      detect_direction_debug ch cx = "unknown") ∧
    detect_direction_debug "SIP/from-trunk-0001" "" = "inbound" ∧
    detect_direction_debug "SIP/from-internal-0002" "" = "outbound" ∧
    detect_direction_debug "SIP/100-abc" "ext-local" = "internal" ∧
    detect_direction_debug "SIP/100-abc" "foo" = "unknown" := by
  refine ⟨?_, ?_, ?_, ?_, by decide, by decide, by decide, by decide⟩
  · intro ch cx h
    cases ha : strContains (strLower ch) "from-trunk" <;>
      cases hb : strContains (strLower ch) "from-pstn" <;>
        cases hc : strContains (strLower cx) "from-trunk" <;>
          cases hd : strContains (strLower cx) "from-pstn" <;>
            simp_all [detect_direction_debug]
  · intro ch cx h1 h2 h3 h4 h
    simp [detect_direction_debug, h1, h2, h3, h4, h]
  · intro ch cx h1 h2 h3 h4 h5 h6 h
    simp [detect_direction_debug, h1, h2, h3, h4, h5, h6, h]
  · intro ch cx h1 h2 h3 h4 h5 h6 h7
    simp [detect_direction_debug, h1, h2, h3, h4, h5, h6, h7]

/-- Helper: with no `NewChannel` event and no session for the id, a run of
events all carrying that id emits no fact and leaves the id absent. -/
theorem runEvents_absent_no_newchannel :
    ∀ (es : List AmiEvent) (t : SessionTable) (id : String),
      es.all (fun e => e.uid == id) = true →
      es.all (fun e => !e.isNewChannel) = true →
      t id = none →
      (runEvents t es).2 = [] ∧ (runEvents t es).1 id = none := by
  intro es
  induction es with
  | nil => intro t id _ _ ht; exact ⟨rfl, ht⟩
  | cons e es ih =>
    intro t id hall hnc ht
    simp only [List.all_cons, Bool.and_eq_true] at hall hnc
    obtain ⟨hu, hall'⟩ := hall
    obtain ⟨hn, hnc'⟩ := hnc
    cases e with
    | newChannel u ch cid tm => simp [AmiEvent.isNewChannel] at hn
    | bridgeEnter u tm =>
      have hu' : u = id := by simpa [AmiEvent.uid] using hu
      subst hu'
      have hob : on_bridge_enter t u tm = t := by
        unfold on_bridge_enter
        simp only [ht]
      simp only [runEvents, stepEvent, hob]
      simpa using ih t u hall' hnc' ht
    | hangup u c tm =>
      have hu' : u = id := by simpa [AmiEvent.uid] using hu
      subst hu'
      have hoh : on_hangup t u c tm = (t, none) := by
        unfold on_hangup
        simp only [ht]
      simp only [runEvents, stepEvent, hoh]
      simpa using ih t u hall' hnc' ht

/-- Helper: with no `NewChannel` event, a run of events all carrying one id
emits at most one fact from any starting table. -/
theorem runEvents_no_newchannel_at_most_one :
    ∀ (es : List AmiEvent) (t : SessionTable) (id : String),
      es.all (fun e => e.uid == id) = true →
      es.all (fun e => !e.isNewChannel) = true →
      ((runEvents t es).2).length ≤ 1 := by
  intro es
  induction es with
  | nil => intro t id _ _; simp [runEvents]
  | cons e es ih =>
    intro t id hall hnc
    simp only [List.all_cons, Bool.and_eq_true] at hall hnc
    obtain ⟨hu, hall'⟩ := hall
    obtain ⟨hn, hnc'⟩ := hnc
    cases e with
    | newChannel u ch cid tm => simp [AmiEvent.isNewChannel] at hn
    | bridgeEnter u tm =>
      have hu' : u = id := by simpa [AmiEvent.uid] using hu
      subst hu'
      simp only [runEvents, stepEvent]
      simpa using ih (on_bridge_enter t u tm) u hall' hnc'
    | hangup u c tm =>
      have hu' : u = id := by simpa [AmiEvent.uid] using hu
      subst hu'
      cases ht : t u with
      | none =>
        have hoh : on_hangup t u c tm = (t, none) := by
          unfold on_hangup
          simp only [ht]
        simp only [runEvents, stepEvent, hoh]
        simpa using ih t u hall' hnc'
      | some s =>
        have h1 : ((on_hangup t u c tm).1) u = none := by
          unfold on_hangup
          simp only [ht]
          cases hph : extract_phone s.callerid <;> simp [hph]
        have h2 : ((on_hangup t u c tm).2).toList.length ≤ 1 := by
          cases (on_hangup t u c tm).2 <;> simp
        have h3 := runEvents_absent_no_newchannel es ((on_hangup t u c tm).1) u hall' hnc' h1
        simp only [runEvents, stepEvent]
        rw [List.length_append, h3.1]
        simpa using h2

/-- C1: from a table with no session for the id, any sequence of AMI events
carrying a single unique-id and containing at most one `NewChannel` (which
covers every `NewChannel, BridgeEnter?, Hangup` pattern) produces at most
one `CallFact`; processing a `Hangup` always leaves the session for its id
absent from the table; and a `Hangup` for an id with no session emits no
fact and returns the table unchanged. -/
theorem session_engine_single_fact_and_cleanup :
    (∀ (es : List AmiEvent) (t : SessionTable) (id : String),
      es.all (fun e => e.uid == id) = true →
      (es.filter (fun e => e.isNewChannel)).length ≤ 1 →
      t id = none →
      ((runEvents t es).2).length ≤ 1) ∧
    (∀ (t : SessionTable) (id cause : String) (tm : Nat),
      ((stepEvent t (.hangup id cause tm)).1) id = none) ∧
    (∀ (t : SessionTable) (id cause : String) (tm : Nat),
      t id = none → stepEvent t (.hangup id cause tm) = (t, none)) := by
  refine ⟨?_, ?_, ?_⟩
  · intro es
    induction es with
    | nil => intro t id _ _ _; simp [runEvents]
    | cons e es ih =>
      intro t id hall hcnt ht
      simp only [List.all_cons, Bool.and_eq_true] at hall
      obtain ⟨hu, hall'⟩ := hall
      cases e with
      | newChannel u ch cid tm =>
        have hu' : u = id := by simpa [AmiEvent.uid] using hu
        subst hu'
        have hzero : (es.filter (fun e => e.isNewChannel)).length = 0 := by
          have h' : (AmiEvent.newChannel u ch cid tm :: es).filter
              (fun e => e.isNewChannel) =
              AmiEvent.newChannel u ch cid tm :: es.filter (fun e => e.isNewChannel) := by
            simp [List.filter_cons, AmiEvent.isNewChannel]
          rw [h', List.length_cons] at hcnt
          omega
        have hrest : es.all (fun e => !e.isNewChannel) = true := by
          rw [List.all_eq_true]
          intro e he
          have hf : es.filter (fun e => e.isNewChannel) = [] :=
            List.length_eq_zero.mp hzero
          have := List.filter_eq_nil_iff.mp hf e he
          simpa using this
        simp only [runEvents, stepEvent]
        simpa using runEvents_no_newchannel_at_most_one es
          (on_new_channel t u ch cid tm) u hall' hrest
      | bridgeEnter u tm =>
        have hu' : u = id := by simpa [AmiEvent.uid] using hu
        subst hu'
        have hob : on_bridge_enter t u tm = t := by
          unfold on_bridge_enter
          simp only [ht]
        have hcnt' : (es.filter (fun e => e.isNewChannel)).length ≤ 1 := by
          simpa [List.filter_cons, AmiEvent.isNewChannel] using hcnt
        simp only [runEvents, stepEvent, hob]
        simpa using ih t u hall' hcnt' ht
      | hangup u c tm =>
        have hu' : u = id := by simpa [AmiEvent.uid] using hu
        subst hu'
        have hoh : on_hangup t u c tm = (t, none) := by
          unfold on_hangup
          simp only [ht]
        have hcnt' : (es.filter (fun e => e.isNewChannel)).length ≤ 1 := by
          simpa [List.filter_cons, AmiEvent.isNewChannel] using hcnt
        simp only [runEvents, stepEvent, hoh]
        simpa using ih t u hall' hcnt' ht
  · intro t id cause tm
    cases ht : t id with
    | none => simp [stepEvent, on_hangup, ht]
    | some s =>
      simp only [stepEvent, on_hangup, ht]
      cases hph : extract_phone s.callerid <;> simp [hph]
  · intro t id cause tm ht
    simp [stepEvent, on_hangup, ht]

/-- C1 witness: the lifecycle properties evaluated on a concrete
create/bridge/hangup run and on a hangup with no prior session. -/
theorem session_engine_single_fact_and_cleanup_witness :
    ((runEvents emptyTable
      [.newChannel "u" "SIP/from-trunk-1" "8-916-123-45-67" 0,
       .bridgeEnter "u" 1,
       .hangup "u" "Normal Clearing" 2]).2).length ≤ 1 ∧
    ((stepEvent emptyTable (.hangup "u" "Normal Clearing" 3)).1) "u" = none ∧
    stepEvent emptyTable (.hangup "u" "Normal Clearing" 3) = (emptyTable, none) :=
  ⟨session_engine_single_fact_and_cleanup.1
      [.newChannel "u" "SIP/from-trunk-1" "8-916-123-45-67" 0,
       .bridgeEnter "u" 1,
       .hangup "u" "Normal Clearing" 2] emptyTable "u"
      (by decide) (by decide) (by decide),
   session_engine_single_fact_and_cleanup.2.1 emptyTable "u" "Normal Clearing" 3,
   session_engine_single_fact_and_cleanup.2.2 emptyTable "u" "Normal Clearing" 3
     (by decide)⟩

/-- C8 counterexample: a second `BridgeEnter` for an already-bridged session
is not a no-op — `on_bridge_enter` unconditionally re-records `answer_time`,
so the session's `answeredAt` moves from 1 to 2 and the stored session
changes. -/
theorem bridge_enter_second_event_changes_session :
    ((on_bridge_enter (on_new_channel emptyTable "u" "SIP/x" "8-916-123-45-67" 0) "u" 1) "u").map
        (fun s => s.answerTime) = some (some 1) ∧
    ((on_bridge_enter (on_bridge_enter (on_new_channel emptyTable "u" "SIP/x" "8-916-123-45-67" 0) "u" 1) "u" 2) "u").map
        (fun s => s.answerTime) = some (some 2) ∧
    (on_bridge_enter (on_bridge_enter (on_new_channel emptyTable "u" "SIP/x" "8-916-123-45-67" 0) "u" 1) "u" 2) "u" ≠
      (on_bridge_enter (on_new_channel emptyTable "u" "SIP/x" "8-916-123-45-67" 0) "u" 1) "u" := by
  decide

/-- C8 amended: a `BridgeEnter` for an existing session always sets
`connected := true` and overwrites `answeredAt` with the event time; the
repeated event is a no-op exactly when it carries the timestamp already
recorded. -/
theorem bridge_enter_overwrites_answer_time :
    ∀ (t : SessionTable) (id : String) (tm : Nat) (s : ChannelSession),
      t id = some s →
      ((on_bridge_enter t id tm) id =
        some { s with connected := true, answerTime := some tm }) ∧
      (s.connected = true → s.answerTime = some tm →
        on_bridge_enter t id tm = t) := by
  intro t id tm s h
  constructor
  · simp [on_bridge_enter, h]
  · intro hc ha
    have hs : ({ s with connected := true, answerTime := some tm } : ChannelSession) = s := by
      cases s
      simp_all
    unfold on_bridge_enter
    simp only [h, hs]
    funext k
    by_cases hk : k = id
    · subst hk
      simp [h]
    · simp [hk]

/-- C8 amended witness: the overwrite rule evaluated on a concrete bridged
session. -/
theorem bridge_enter_overwrites_answer_time_witness :
    ((on_bridge_enter
        (fun k => if k = "u" then
          some { channel := "SIP/x", callerid := "89161234567", startTime := 0,
                 direction := "unknown", connected := true, answerTime := some 7 }
          else none) "u" 9) "u" =
      some { channel := "SIP/x", callerid := "89161234567", startTime := 0,
             direction := "unknown", connected := true, answerTime := some 9 }) :=
  (bridge_enter_overwrites_answer_time
    (fun k => if k = "u" then
      some { channel := "SIP/x", callerid := "89161234567", startTime := 0,
             direction := "unknown", connected := true, answerTime := some 7 }
      else none) "u" 9
    { channel := "SIP/x", callerid := "89161234567", startTime := 0,
      direction := "unknown", connected := true, answerTime := some 7 }
    (by decide)).1

/-- C4 counterexample: a call answered at time 0 and hung up at time 86400
(24 hours later) gets `duration = 0`, not `hangupTime - answeredTime =
86400`: the code reads the `seconds` field of the Python `timedelta`, the
remainder modulo one day. -/
theorem hangup_duration_wraps_mod_day :
    (runEvents emptyTable
      [.newChannel "u1" "SIP/x" "8-916-123-45-67" 0,
       .bridgeEnter "u1" 0,
       .hangup "u1" "NC" 86400]).2.map (fun f => f.duration) = [0] ∧
    (0 : Nat) ≠ 86400 - 0 := by
  decide

/-- C4 amended: for a session terminated by hangup, if no `BridgeEnter`
preceded it the emitted fact has duration 0 and carries the hangup cause
text as its status (not the `ANSWERED` marker); if a `BridgeEnter` recorded
`answeredAt = a`, the status is `ANSWERED` and the duration is
`(hangupTime - a) mod 86400` — the whole-seconds day remainder the code
takes from the Python timedelta. -/
theorem hangup_fact_duration_status :
    ∀ (t : SessionTable) (id cause : String) (tm : Nat) (s : ChannelSession)
      (f : CallFact),
      t id = some s →
      (on_hangup t id cause tm).2 = some f →
      (s.answerTime = none → f.duration = 0 ∧ f.status = cause) ∧
      (∀ a : Nat, s.answerTime = some a →
        f.status = "ANSWERED" ∧
        f.duration = (((tm : Int) - (a : Int)) % 86400).toNat) := by
  intro t id cause tm s f hs hf
  unfold on_hangup at hf
  simp only [hs] at hf
  cases hph : extract_phone s.callerid with
  | none =>
    simp [hph] at hf
  | some ph =>
    simp only [hph] at hf
    have hf2 := Option.some.inj hf
    subst hf2
    constructor
    · intro ha
      simp [hangupDuration, ha]
    · intro a ha
      simp [hangupDuration, ha]

/-- C4 amended witness: a session answered at 10 and hung up at 25 yields an
`ANSWERED` fact of duration 15. -/
theorem hangup_fact_duration_status_witness :
    ({ phone := "79161234567", direction := "unknown", duration := 15,
       status := "ANSWERED", uniqueid := "u", timestamp := 5 } : CallFact).status = "ANSWERED" ∧
    ({ phone := "79161234567", direction := "unknown", duration := 15,
       status := "ANSWERED", uniqueid := "u", timestamp := 5 } : CallFact).duration =
      ((25 - (10 : Int)) % 86400).toNat :=
  (hangup_fact_duration_status
    (fun k => if k = "u" then
      some { channel := "SIP/x", callerid := "89161234567", startTime := 5,
             direction := "unknown", connected := true, answerTime := some 10 }
      else none) "u" "NC" 25
    { channel := "SIP/x", callerid := "89161234567", startTime := 5,
      direction := "unknown", connected := true, answerTime := some 10 }
    { phone := "79161234567", direction := "unknown", duration := 15,
      status := "ANSWERED", uniqueid := "u", timestamp := 5 }
    (by decide) (by decide)).2 10 (by decide)

/-- C6 counterexample: with the stored refresh token absent, `refresh_tokens`
still performs the network exchange (one token-endpoint call, not zero), and
if the server answers with a token pair it even succeeds — the claim's
"fails immediately without making any network call" does not hold. -/
theorem refresh_absent_token_still_calls_network :
    (refresh_tokens { access_token := none, refresh_token := none, stored := none }
      (fun _ => some ("a", "b"))).2 = 1 ∧
    (refresh_tokens { access_token := none, refresh_token := none, stored := none }
      (fun _ => some ("a", "b"))).1 =
      Except.ok { access_token := some "a", refresh_token := some "b",
                  stored := some ("a", "b") } ∧
    (1 : Nat) ≠ 0 := by
  decide

/-- C6 amended: every call to `refresh_tokens` performs exactly one
token-endpoint exchange, even when the stored refresh token is absent; it
errors (a generic uncaught exception, not a dedicated `AuthRefreshError`)
exactly when the exchange response lacks the token pair; on success it
replaces both tokens and persists the new pair. -/
theorem refresh_tokens_behavior :
    ∀ (st : TokenState) (net : Option String → Option (String × String)),
      (refresh_tokens st net).2 = 1 ∧
      (net st.refresh_token = none →
        (refresh_tokens st net).1 = Except.error ()) ∧
      (∀ a r : String, net st.refresh_token = some (a, r) →
        (refresh_tokens st net).1 =
          Except.ok { access_token := some a, refresh_token := some r,
                      stored := some (a, r) }) := by
  intro st net
  refine ⟨?_, ?_, ?_⟩
  · unfold refresh_tokens
    cases net st.refresh_token <;> simp
  · intro h
    simp [refresh_tokens, h]
  · intro a r h
    simp [refresh_tokens, h]

/-- C6 amended witness: the failure and success branches on concrete
oracles. -/
theorem refresh_tokens_behavior_witness :
    (refresh_tokens { access_token := some "x", refresh_token := some "y", stored := none }
      (fun _ => none)).1 = Except.error () ∧
    (refresh_tokens { access_token := some "x", refresh_token := some "y", stored := none }
      (fun _ => some ("a", "b"))).1 =
      Except.ok { access_token := some "a", refresh_token := some "b",
                  stored := some ("a", "b") } :=
  ⟨(refresh_tokens_behavior
      { access_token := some "x", refresh_token := some "y", stored := none }
      (fun _ => none)).2.1 rfl,
   (refresh_tokens_behavior
      { access_token := some "x", refresh_token := some "y", stored := none }
      (fun _ => some ("a", "b"))).2.2 "a" "b" rfl⟩

/-- C7 counterexample: two triggers of the unguarded `refresh_tokens` body
perform two token-endpoint exchanges, not one — there is no single-flight
guard. -/
theorem concurrent_refresh_two_exchanges :
    (refreshN (fun _ => some ("a", "b"))
      { access_token := none, refresh_token := some "r", stored := none } 2).2 = 2 ∧
    (2 : Nat) ≠ 1 := by
  decide

/-- C7 amended: `n` triggers of `refresh_tokens` perform exactly `n`
token-endpoint exchanges (each invocation unconditionally posts its own
exchange; no caller shares an in-flight one). -/
theorem refreshN_exchange_count :
    ∀ (net : Option String → Option (String × String)) (st : TokenState) (n : Nat),
      (refreshN net st n).2 = n := by
  intro net st n
  induction n generalizing st with
  | zero => rfl
  | succ n ih =>
    have h1 : (refresh_tokens st net).2 = 1 := by
      unfold refresh_tokens
      cases net st.refresh_token <;> simp
    simp only [refreshN]
    rw [h1, ih]
    omega

/-- C7 amended witness: three triggers on a concrete oracle give three
exchanges. -/
theorem refreshN_exchange_count_witness :
    (refreshN (fun _ => some ("a", "b"))
      { access_token := none, refresh_token := some "r", stored := none } 3).2 = 3 :=
  refreshN_exchange_count (fun _ => some ("a", "b"))
    { access_token := none, refresh_token := some "r", stored := none } 3

/-- Helper: the no-retry request always makes exactly one attempt and no
refresh. -/
theorem api_request_noretry_counts :
    ∀ (oracle : Option String → Nat → Nat × List Nat) (st : TokenState) (i : Nat),
      (api_request_noretry oracle st i).attempts = 1 ∧
      (api_request_noretry oracle st i).refreshes = 0 ∧
      (api_request_noretry oracle st i).result =
        (if 400 ≤ (oracle st.access_token i).1 then Except.ok none
         else Except.ok (some (oracle st.access_token i).2)) := by
  intro oracle st i
  unfold api_request_noretry
  by_cases h : 400 ≤ (oracle st.access_token i).1 <;> simp [h]

/-- C5 counterexample: a request answered 401 twice ends as the generic
`None` result — exactly the outcome of a plain 500 — so the second 401 is
not surfaced as a distinct `CrmAuthError`. -/
theorem double_401_not_distinct_error :
    (api_request (fun _ _ => (401, ([] : List Nat))) (fun _ => some ("a", "b"))
      { access_token := some "t", refresh_token := some "r", stored := none } 0).result =
      Except.ok none ∧
    (api_request (fun _ i => if i = 0 then (500, ([] : List Nat)) else (200, []))
      (fun _ => some ("a", "b"))
      { access_token := some "t", refresh_token := some "r", stored := none } 0).result =
      Except.ok none ∧
    (api_request (fun _ _ => (401, ([] : List Nat))) (fun _ => some ("a", "b"))
      { access_token := some "t", refresh_token := some "r", stored := none } 0).result =
    (api_request (fun _ i => if i = 0 then (500, ([] : List Nat)) else (200, []))
      (fun _ => some ("a", "b"))
      { access_token := some "t", refresh_token := some "r", stored := none } 0).result := by
  decide

/-- C5 amended: `api_request` makes at most two HTTP attempts; a non-401
first response means no refresh and a single attempt; a 401 first response
with a successful refresh means exactly one refresh and exactly one retry
carrying the new access token, and a second failing status (401 included)
yields the generic `None` result rather than a distinct auth error. -/
theorem api_request_retry_behavior :
    ∀ (oracle : Option String → Nat → Nat × List Nat)
      (net : Option String → Option (String × String))
      (st : TokenState) (i : Nat),
      (api_request oracle net st i).attempts ≤ 2 ∧
      ((oracle st.access_token i).1 ≠ 401 →
        (api_request oracle net st i).refreshes = 0 ∧
        (api_request oracle net st i).attempts = 1) ∧
      (∀ a r : String, (oracle st.access_token i).1 = 401 →
        net st.refresh_token = some (a, r) →
        (api_request oracle net st i).refreshes = 1 ∧
        (api_request oracle net st i).attempts = 2 ∧
        (api_request oracle net st i).result =
          (if 400 ≤ (oracle (some a) (i + 1)).1 then Except.ok none
           else Except.ok (some (oracle (some a) (i + 1)).2))) := by
  intro oracle net st i
  refine ⟨?_, ?_, ?_⟩
  · unfold api_request
    by_cases h4 : (oracle st.access_token i).1 = 401
    · simp only [h4, if_true]
      cases hnet : (refresh_tokens st net).1 with
      | error e => simp
      | ok st' =>
        have := api_request_noretry_counts oracle st' (i + 1)
        simp [this.1]
    · by_cases h5 : 400 ≤ (oracle st.access_token i).1 <;> simp [h4, h5]
  · intro h4
    by_cases h5 : 400 ≤ (oracle st.access_token i).1 <;>
      simp [api_request, h4, h5]
  · intro a r h4 hnet
    have hrt : (refresh_tokens st net).1 =
        Except.ok { access_token := some a, refresh_token := some r,
                    stored := some (a, r) } := by
      simp [refresh_tokens, hnet]
    have hcounts := api_request_noretry_counts oracle
      { access_token := some a, refresh_token := some r, stored := some (a, r) } (i + 1)
    unfold api_request
    simp only [h4, if_true, hrt]
    exact ⟨by simp [hcounts.2.1], by simp [hcounts.1], by simp [hcounts.2.2]⟩

/-- C5 amended witness: a 401 followed by a 200 retried with the refreshed
token. -/
theorem api_request_retry_behavior_witness :
    (api_request (fun tok i => if tok = some "a" && i = 1 then (200, [7]) else (401, []))
      (fun _ => some ("a", "b"))
      { access_token := some "t", refresh_token := some "r", stored := none } 0).refreshes = 1 ∧
    (api_request (fun tok i => if tok = some "a" && i = 1 then (200, [7]) else (401, []))
      (fun _ => some ("a", "b"))
      { access_token := some "t", refresh_token := some "r", stored := none } 0).attempts = 2 :=
  ⟨((api_request_retry_behavior
      (fun tok i => if tok = some "a" && i = 1 then (200, [7]) else (401, []))
      (fun _ => some ("a", "b"))
      { access_token := some "t", refresh_token := some "r", stored := none } 0).2.2
      "a" "b" (by decide) (by decide)).1,
   ((api_request_retry_behavior
      (fun tok i => if tok = some "a" && i = 1 then (200, [7]) else (401, []))
      (fun _ => some ("a", "b"))
      { access_token := some "t", refresh_token := some "r", stored := none } 0).2.2
      "a" "b" (by decide) (by decide)).2.1⟩

/-- Helper: whenever the lookup request comes back as the generic `None`
result, `process_call` creates an unsorted lead. -/
theorem process_call_of_api_none :
    ∀ (oracle : String → Option String → Nat → Nat × List Nat)
      (net : Option String → Option (String × String))
      (st : TokenState) (phone uniqueid : String) (files : List RecFile),
      (api_request (oracle (digitsOnly phone)) net st 0).result = Except.ok none →
      process_call oracle net st phone uniqueid files =
        Except.ok (SyncAction.createUnsorted phone) := by
  intro oracle net st phone uniqueid files h
  unfold process_call find_contact
  rw [h]
  rfl

/-- C10: the contact lookup collapses every failed request to "no contact":
an HTTP error status on the single attempt (or on the retry after a 401 with
a successful refresh) makes `process_call` create an unsorted lead, exactly
as a successful response with zero contacts does — a CRM outage during
lookup is indistinguishable from a missing contact. -/
theorem lookup_failure_creates_unsorted :
    ∀ (oracle : String → Option String → Nat → Nat × List Nat)
      (net : Option String → Option (String × String))
      (st : TokenState) (phone uniqueid : String) (files : List RecFile),
      ((api_request (oracle (digitsOnly phone)) net st 0).result = Except.ok none →
        process_call oracle net st phone uniqueid files =
          Except.ok (SyncAction.createUnsorted phone)) ∧
      (400 ≤ (oracle (digitsOnly phone) st.access_token 0).1 →
        (oracle (digitsOnly phone) st.access_token 0).1 ≠ 401 →
        process_call oracle net st phone uniqueid files =
          Except.ok (SyncAction.createUnsorted phone)) ∧
      (∀ a r : String, (oracle (digitsOnly phone) st.access_token 0).1 = 401 →
        net st.refresh_token = some (a, r) →
        400 ≤ (oracle (digitsOnly phone) (some a) 1).1 →
        process_call oracle net st phone uniqueid files =
          Except.ok (SyncAction.createUnsorted phone)) ∧
      ((oracle (digitsOnly phone) st.access_token 0).1 < 400 →
        (oracle (digitsOnly phone) st.access_token 0).2 = [] →
        process_call oracle net st phone uniqueid files =
          Except.ok (SyncAction.createUnsorted phone)) := by
  intro oracle net st phone uniqueid files
  refine ⟨process_call_of_api_none oracle net st phone uniqueid files, ?_, ?_, ?_⟩
  · intro h400 h401
    apply process_call_of_api_none
    simp [api_request, h401, h400]
  · intro a r h401 hnet h400
    apply process_call_of_api_none
    have hrt : (refresh_tokens st net).1 =
        Except.ok { access_token := some a, refresh_token := some r,
                    stored := some (a, r) } := by
      simp [refresh_tokens, hnet]
    simp [api_request, h401, hrt, api_request_noretry, h400]
  · intro hlt hbody
    have h401 : ¬ (oracle (digitsOnly phone) st.access_token 0).1 = 401 := by omega
    have h400 : ¬ 400 ≤ (oracle (digitsOnly phone) st.access_token 0).1 := by omega
    unfold process_call find_contact
    simp only [api_request, h401, h400, hbody, if_false, if_true]
    rfl

/-- C10 witness: a 500 on lookup and an empty contact list both yield the
same unsorted-lead creation on concrete inputs. -/
theorem lookup_failure_creates_unsorted_witness :
    process_call (fun _ _ _ => (500, [])) (fun _ => some ("a", "b"))
      { access_token := some "t", refresh_token := some "r", stored := none }
      "79161234567" "u1" [] = Except.ok (SyncAction.createUnsorted "79161234567") ∧
    process_call (fun _ _ _ => (200, [])) (fun _ => some ("a", "b"))
      { access_token := some "t", refresh_token := some "r", stored := none }
      "79161234567" "u1" [] = Except.ok (SyncAction.createUnsorted "79161234567") :=
  ⟨(lookup_failure_creates_unsorted (fun _ _ _ => (500, [])) (fun _ => some ("a", "b"))
      { access_token := some "t", refresh_token := some "r", stored := none }
      "79161234567" "u1" []).2.1 (by decide) (by decide),
   (lookup_failure_creates_unsorted (fun _ _ _ => (200, [])) (fun _ => some ("a", "b"))
      { access_token := some "t", refresh_token := some "r", stored := none }
      "79161234567" "u1" []).2.2.2 (by decide) (by decide)⟩

/-- Helper: the `max(..., key=getmtime)` fold returns the start or a list
element, and its mtime bounds the start and every element. -/
theorem foldl_latest_spec :
    ∀ (xs : List RecFile) (x : RecFile),
      (xs.foldl (fun g y => if y.mtime > g.mtime then y else g) x = x ∨
        xs.foldl (fun g y => if y.mtime > g.mtime then y else g) x ∈ xs) ∧
      x.mtime ≤ (xs.foldl (fun g y => if y.mtime > g.mtime then y else g) x).mtime ∧
      (∀ g ∈ xs, g.mtime ≤ (xs.foldl (fun g y => if y.mtime > g.mtime then y else g) x).mtime) := by
  intro xs
  induction xs with
  | nil => intro x; simp
  | cons y ys ih =>
    intro x
    simp only [List.foldl_cons]
    obtain ⟨hm, hx, hall⟩ := ih (if y.mtime > x.mtime then y else x)
    have hstep : x.mtime ≤ (if y.mtime > x.mtime then y else x).mtime ∧
        y.mtime ≤ (if y.mtime > x.mtime then y else x).mtime := by
      by_cases hc : y.mtime > x.mtime <;> simp [hc] <;> omega
    refine ⟨?_, le_trans hstep.1 hx, ?_⟩
    · rcases hm with h | h
      · by_cases hc : y.mtime > x.mtime
        · rw [if_pos hc] at h ⊢
          right
          rw [h]
          exact List.mem_cons_self y ys
        · rw [if_neg hc] at h ⊢
          left
          exact h
      · right
        exact List.mem_cons_of_mem _ h
    · intro g hg
      rcases List.mem_cons.mp hg with h | h
      · rw [h]
        exact le_trans hstep.2 hx
      · exact hall g h

/-- Helper: a `some` result of `latestFile` is a member of maximal mtime. -/
theorem latestFile_spec :
    ∀ (l : List RecFile) (f : RecFile), latestFile l = some f →
      f ∈ l ∧ ∀ g ∈ l, g.mtime ≤ f.mtime := by
  intro l f h
  cases l with
  | nil => simp [latestFile] at h
  | cons x xs =>
    simp only [latestFile, Option.some_inj] at h
    obtain ⟨hm, hx, hall⟩ := foldl_latest_spec xs x
    rw [h] at hm hx hall
    constructor
    · rcases hm with h1 | h1
      · rw [h1]
        exact List.mem_cons_self x xs
      · exact List.mem_cons_of_mem _ h1
    · intro g hg
      rcases List.mem_cons.mp hg with h1 | h1
      · rw [h1]
        exact hx
      · exact hall g h1

/-- Helper: a `none` result of the extension loop means no file matches any
pattern of the list. -/
theorem findRecAux_none_spec :
    ∀ (exts : List String) (uid : String) (files : List RecFile),
      findRecAux uid files exts = none →
      ∀ f ∈ files, ∀ ext ∈ exts, globMatch uid ext f.name = false := by
  intro exts
  induction exts with
  | nil =>
    intro uid files _ f _ ext hext
    simp at hext
  | cons ext rest ih =>
    intro uid files h f hf e he
    unfold findRecAux at h
    by_cases hemp : (files.filter (fun g => globMatch uid ext g.name)).isEmpty
    · rw [if_pos hemp] at h
      rcases List.mem_cons.mp he with he1 | he2
      · subst he1
        have hnil : files.filter (fun g => globMatch uid e g.name) = [] :=
          List.isEmpty_iff.mp hemp
        cases hgm : globMatch uid e f.name
        · rfl
        · exfalso
          have hmem : f ∈ files.filter (fun g => globMatch uid e g.name) :=
            List.mem_filter.mpr ⟨hf, hgm⟩
          rw [hnil] at hmem
          simp at hmem
      · exact ih uid files h f hf e he2
    · rw [if_neg hemp] at h
      exfalso
      cases hms : files.filter (fun g => globMatch uid ext g.name) with
      | nil =>
        rw [hms] at hemp
        simp at hemp
      | cons a as =>
        rw [hms] at h
        simp [latestFile] at h

/-- Helper: a `some` result of the extension loop is a file matching the
first pattern that matches anything, of maximal mtime among those matches. -/
theorem findRecAux_some_spec :
    ∀ (exts : List String) (uid : String) (files : List RecFile) (f : RecFile),
      findRecAux uid files exts = some f →
      ∃ pre post : List String, ∃ ext : String,
        exts = pre ++ ext :: post ∧
        (∀ e ∈ pre, ∀ g ∈ files, globMatch uid e g.name = false) ∧
        f ∈ files ∧ globMatch uid ext f.name = true ∧
        (∀ g ∈ files, globMatch uid ext g.name = true → g.mtime ≤ f.mtime) := by
  intro exts
  induction exts with
  | nil =>
    intro uid files f h
    simp [findRecAux] at h
  | cons ext rest ih =>
    intro uid files f h
    unfold findRecAux at h
    by_cases hemp : (files.filter (fun g => globMatch uid ext g.name)).isEmpty
    · rw [if_pos hemp] at h
      obtain ⟨pre, post, e, heq, hpre, hf, hm, hmax⟩ := ih uid files f h
      refine ⟨ext :: pre, post, e, by rw [heq]; rfl, ?_, hf, hm, hmax⟩
      intro e' he' g hg
      rcases List.mem_cons.mp he' with h1 | h1
      · subst h1
        have hnil : files.filter (fun x => globMatch uid e' x.name) = [] :=
          List.isEmpty_iff.mp hemp
        cases hgm : globMatch uid e' g.name
        · rfl
        · exfalso
          have hmem : g ∈ files.filter (fun x => globMatch uid e' x.name) :=
            List.mem_filter.mpr ⟨hg, hgm⟩
          rw [hnil] at hmem
          simp at hmem
      · exact hpre e' h1 g hg
    · rw [if_neg hemp] at h
      obtain ⟨hmem, hbound⟩ := latestFile_spec _ f h
      have hmf := List.mem_filter.mp hmem
      refine ⟨[], rest, ext, rfl, by simp, hmf.1, hmf.2, ?_⟩
      intro g hg hgm
      exact hbound g (List.mem_filter.mpr ⟨hg, hgm⟩)

/-- C9 counterexample: with an older `.wav` (mtime 1) and a newer `.mp3`
(mtime 5) both matching the unique-id, `find_recording` returns the `.wav`
— not the latest-modified match — and an uppercase `.MP3` file, in the
allowed set case-insensitively, is not found at all. -/
theorem find_recording_ignores_newer_other_extension :
    find_recording "100"
      [{ name := "a100b.wav", mtime := 1 }, { name := "c100d.mp3", mtime := 5 }] =
      some { name := "a100b.wav", mtime := 1 } ∧
    globMatch "100" ".mp3" "c100d.mp3" = true ∧
    (1 : Nat) < 5 ∧
    find_recording "100" [{ name := "x100y.MP3", mtime := 5 }] = none := by
  decide

/-- C9 amended: `find_recording` returns `none` exactly when no file matches
any of the three literal patterns `*uid*.wav`, `*uid*.WAV`, `*uid*.mp3`;
a `some` result is a matching file of maximal mtime among the matches of the
first pattern in that order that matches anything (so extensions outside the
literal three are never considered and a later-priority extension never wins
on mtime). -/
theorem find_recording_characterization :
    ∀ (uid : String) (files : List RecFile),
      (find_recording uid files = none →
        ∀ f ∈ files, ∀ ext ∈ recordingExts, globMatch uid ext f.name = false) ∧
      (∀ f : RecFile, find_recording uid files = some f →
        ∃ pre post : List String, ∃ ext : String,
          recordingExts = pre ++ ext :: post ∧
          (∀ e ∈ pre, ∀ g ∈ files, globMatch uid e g.name = false) ∧
          f ∈ files ∧ globMatch uid ext f.name = true ∧
          (∀ g ∈ files, globMatch uid ext g.name = true → g.mtime ≤ f.mtime)) := by
  intro uid files
  exact ⟨fun h => findRecAux_none_spec recordingExts uid files h,
         fun f h => findRecAux_some_spec recordingExts uid files f h⟩

/-- C9 amended witness: the characterization applied to a concrete store
with a single matching `.wav` file. -/
theorem find_recording_characterization_witness :
    ∃ pre post : List String, ∃ ext : String,
      recordingExts = pre ++ ext :: post ∧
      (∀ e ∈ pre, ∀ g ∈ [({ name := "a100b.wav", mtime := 3 } : RecFile)],
        globMatch "100" e g.name = false) ∧
      ({ name := "a100b.wav", mtime := 3 } : RecFile) ∈
        [({ name := "a100b.wav", mtime := 3 } : RecFile)] ∧
      globMatch "100" ext "a100b.wav" = true ∧
      (∀ g ∈ [({ name := "a100b.wav", mtime := 3 } : RecFile)],
        globMatch "100" ext g.name = true →
        g.mtime ≤ ({ name := "a100b.wav", mtime := 3 } : RecFile).mtime) :=
  (find_recording_characterization "100"
    [{ name := "a100b.wav", mtime := 3 }]).2
    { name := "a100b.wav", mtime := 3 } (by decide)

/-- C3 witness: the priority rules applied at concrete channel/context
strings. -/
theorem detect_direction_priority_order_witness :
    detect_direction_debug "SIP/from-trunk-0001" "x" = "inbound" ∧
    detect_direction_debug "SIP/200" "from-internal" = "outbound" ∧
    detect_direction_debug "SIP/200" "ext-local" = "internal" ∧
    detect_direction_debug "SIP/200" "ctx" = "unknown" :=
  ⟨detect_direction_priority_order.1 "SIP/from-trunk-0001" "x" (by decide),
   detect_direction_priority_order.2.1 "SIP/200" "from-internal"
     (by decide) (by decide) (by decide) (by decide) (by decide),
   detect_direction_priority_order.2.2.1 "SIP/200" "ext-local"
     (by decide) (by decide) (by decide) (by decide) (by decide) (by decide) (by decide),
   detect_direction_priority_order.2.2.2.1 "SIP/200" "ctx"
     (by decide) (by decide) (by decide) (by decide) (by decide) (by decide) (by decide)⟩
